import Mathlib

/-!
Verification development for the Play Store review analyzer
(`app_review_analyzer.py` and `frontend/app.py`).

The Python code is shallowly embedded below.  External collaborators are
modelled as oracles passed in explicitly:
* the Anthropic model call (`self.claude.messages.create` plus the
  `response.content[0].text` access) is a `ClaudeOutcome` — either an
  in-call exception or the returned text;
* `json.loads` (Python standard library) is an oracle
  `parse : String → Option JVal` returning the parsed JSON value, `none`
  meaning a `JSONDecodeError`;
* the `google_play_scraper` calls `app(...)` / `reviews(...)` are
  oracles returning either a value or the `PyError` they raise;
* the filesystem is an explicit `FS` value (directory names and a map
  from paths to file contents).

Python exceptions are modelled with `Except PyError`; an uncaught
exception is an `Except.error` result.

JSON values are modelled with their depth capped at the two levels the
analyzer actually inspects: the top-level value, the values of its
fields, and the elements of those values.  Anything deeper is collapsed
to a `nested` marker — the code never looks inside such values, it only
ever fails on them (they are neither iterable strings nor hashable dict
keys), so the collapse is behaviour-preserving.
-/

/-- An element of a JSON array (or a character / dict key produced by
iterating a string or dict).  `nested` stands for any deeper array or
object: only its unhashability matters to the code. -/
inductive JItem where
  | str (s : String)
  | num (n : Int)
  | nested
deriving DecidableEq, Repr

/-- A value stored under one of the keys of the parsed analysis dict. -/
inductive JField where
  | str (s : String)
  | num (n : Int)
  | arr (xs : List JItem)
  | obj (fields : List (String × JItem))
deriving DecidableEq, Repr

/-- A JSON value as returned by `json.loads` for the whole response. -/
inductive JVal where
  | str (s : String)
  | num (n : Int)
  | arr (xs : List JItem)
  | obj (fields : List (String × JField))
deriving DecidableEq, Repr

/-- Python exception classes relevant to the analyzer. -/
inductive PyError where
  | notFoundError (m : String)
  | ioError (m : String)
  | lookupError (m : String)
  | valueError (m : String)
  | typeError (m : String)
  | keyError (m : String)
  | exception (m : String)
deriving DecidableEq, Repr

/-- Message of an exception, as `str(e)` would render it. -/
def PyError.msg : PyError → String
  | .notFoundError m => m
  | .ioError m => m
  | .lookupError m => m
  | .valueError m => m
  | .typeError m => m
  | .keyError m => m
  | .exception m => m

/-- Is the exception a Python `LookupError`? -/
def PyError.isLookupError : PyError → Bool
  | .lookupError _ => true
  | _ => false

/-- Is the exception a Python `IOError` (`OSError`)? -/
def PyError.isIOError : PyError → Bool
  | .ioError _ => true
  | _ => false

/-- Is the `Except` result a success (`ok` constructor)? -/
def isOkB {ε α : Type} : Except ε α → Bool
  | .ok _ => true
  | .error _ => false

/-- Python dict lookup `d[key]` / `d.get(key)` over insertion-ordered
key-value pairs (keys are unique in every dict the code builds). -/
def alookup {β : Type} : List (String × β) → String → Option β
  | [], _ => none
  | (k, v) :: rest, key => if k = key then some v else alookup rest key

/-- Python dict item assignment `d[key] = nv` for a key already present:
the value is replaced in place, insertion order is kept. -/
def setField : List (String × JField) → String → JField → List (String × JField)
  | [], _, _ => []
  | (k, v) :: rest, key, nv =>
    if k = key then (k, nv) :: rest else (k, v) :: setField rest key nv

/-- Python `key in d`. -/
def hasKey (fields : List (String × JField)) (k : String) : Bool :=
  fields.any (fun kv => kv.1 = k)

/-- Python `s.find(c)`: index of the first occurrence, `-1` if absent. -/
def pyFind (cs : List Char) (c : Char) : Int :=
  match cs with
  | [] => -1
  | x :: xs =>
    if x = c then 0
    else
      let r := pyFind xs c
      if r = -1 then -1 else r + 1

/-- Python `s.rfind(c)`: index of the last occurrence, `-1` if absent. -/
def pyRFind (cs : List Char) (c : Char) : Int :=
  match cs with
  | [] => -1
  | x :: xs =>
    let r := pyRFind xs c
    if r = -1 then (if x = c then 0 else -1) else r + 1

/-- Python slice `s[a:b]` for non-negative bounds. -/
def pySlice (cs : List Char) (a b : Nat) : List Char :=
  (cs.drop a).take (b - a)

/-- Python `s.strip()` (whitespace removed from both ends). -/
def pyStrip (s : String) : String :=
  String.mk (((s.toList.dropWhile Char.isWhitespace).reverse.dropWhile
    Char.isWhitespace).reverse)

/-- Outcome of the model call in `analyze_sentiment`: either some
exception raised while calling the API or reading the response content,
or the response text `response.content[0].text`. -/
inductive ClaudeOutcome where
  | apiError (e : PyError)
  | response (text : String)

/-- Lines 102–111 of `analyze_sentiment`: strip the response, find the
first opening brace and the last closing brace, and cut the substring
between them out; `none` when `start_idx == -1 or end_idx == 0`. -/
def extractJson (text : String) : Option String :=
  let response_text := pyStrip text
  let cs := response_text.toList
  let start_idx := pyFind cs '{'
  let end_idx := pyRFind cs '}' + 1
  if start_idx = -1 ∨ end_idx = 0 then none
  else some (String.mk (pySlice cs start_idx.toNat end_idx.toNat))

/-- The four keys the classifier requires in the parsed response. -/
def requiredKeys : List String := ["sentiment", "topics", "issues", "praises"]

/-- Body of the `try` block of `analyze_sentiment` (lines 88–129):
every `raise` site becomes an `Except.error`.  A non-dict parse result
makes the subsequent key test / subscript raise, hence the error in that
branch. -/
def analyzeSentimentTry (parse : String → Option JVal) (o : ClaudeOutcome) :
    Except PyError JVal :=
  match o with
  | .apiError e => .error e
  | .response text =>
    match extractJson text with
    | none => .error (.valueError ("No JSON object found in response"))
    | some json_str =>
      match parse json_str with
      | none => .error (.valueError ("JSONDecodeError"))
      | some analysis =>
        match analysis with
        | .obj fields =>
          if requiredKeys.all (hasKey fields) then
            match alookup fields ("sentiment") with
            | some (JField.str s) =>
              if s = "positive" ∨ s = "negative" ∨ s = "neutral" ∨ s = "mixed" then
                if s = "mixed" then
                  .ok (JVal.obj (setField fields ("sentiment") (JField.str ("neutral"))))
                else
                  .ok (JVal.obj fields)
              else
                .error (.valueError (("Invalid sentiment value: ") ++ s))
            | _ => .error (.valueError ("Invalid sentiment value"))
          else
            .error (.valueError ("Response missing required keys"))
        | _ => .error (.typeError ("argument of type is not a dict"))

/-- The fallback judgment returned by the `except` clause. -/
def fallbackJudgment : JVal :=
  JVal.obj [(("sentiment"), JField.str ("neutral")),
            (("topics"), JField.arr [JItem.str ("error")]),
            (("issues"), JField.arr []),
            (("praises"), JField.arr [])]

/-- `PlayStoreReviewAnalyzer.analyze_sentiment`: the whole method —
the `try` body together with the blanket `except Exception` clause
returning the fallback judgment. -/
def analyze_sentiment (parse : String → Option JVal) (o : ClaudeOutcome) : JVal :=
  match analyzeSentimentTry parse o with
  | .ok a => a
  | .error _ => fallbackJudgment

/-- Sentiment string of a judgment, when present. -/
def getSentiment : JVal → Option String
  | .obj fields =>
    match alookup fields ("sentiment") with
    | some (JField.str s) => some s
    | _ => none
  | _ => none

/-- Does an optional sentiment lie in the three-valued range? -/
def validSentimentB : Option String → Bool
  | some s => s == "positive" || s == "negative" || s == "neutral"
  | none => false

/-- A review record as used by the analyzer (`score` and `content` are
the only fields `analyze_reviews` reads). -/
structure Review where
  score : Int
  content : String
deriving DecidableEq, Repr

/-- The `sentiment_distribution` dict: initialized to
`{"positive": 0, "neutral": 0, "negative": 0}` and only ever incremented
at those three keys. -/
structure SentimentDist where
  positive : Nat
  neutral : Nat
  negative : Nat
deriving DecidableEq, Repr

/-- Python `for x in v`: a list yields its elements, a string its
characters (as one-character strings), a dict its keys; a number is not
iterable. -/
def pyIter : JField → Except PyError (List JItem)
  | .arr xs => .ok xs
  | .str s => .ok (s.toList.map (fun c => JItem.str (String.singleton c)))
  | .obj fields => .ok (fields.map (fun kv => JItem.str kv.1))
  | .num _ => .error (.typeError ("int object is not iterable"))

/-- May the item be used as a dict key? (Python hashability.) -/
def hashable : JItem → Bool
  | .str _ => true
  | .num _ => true
  | .nested => false

/-- One execution of `d[k] = d.get(k, 0) + 1`: an existing key is
incremented in place, a new key is appended with count 1. -/
def bumpCount (m : List (JItem × Nat)) (k : JItem) : List (JItem × Nat) :=
  if m.any (fun kv => kv.1 = k) then
    m.map (fun kv => if kv.1 = k then (kv.1, kv.2 + 1) else kv)
  else
    m ++ [(k, 1)]

/-- The `for t in items` counting loop over one judgment's list;
an unhashable item makes `d.get(t, 0)` raise `TypeError`. -/
def bumpAll (m : List (JItem × Nat)) : List JItem → Except PyError (List (JItem × Nat))
  | [] => .ok m
  | k :: rest =>
    if hashable k then bumpAll (bumpCount m k) rest
    else .error (.typeError ("unhashable type"))

/-- The statement `stats["sentiment_distribution"][analysis["sentiment"]] += 1`:
a missing `sentiment` key raises `KeyError`, and any sentiment value
other than the three bucket names fails the outer dict lookup. -/
def sentimentBump (sd : SentimentDist) (analysis : JVal) : Except PyError SentimentDist :=
  match getSentiment analysis with
  | some s =>
    if s = "positive" then .ok ⟨sd.positive + 1, sd.neutral, sd.negative⟩
    else if s = "neutral" then .ok ⟨sd.positive, sd.neutral + 1, sd.negative⟩
    else if s = "negative" then .ok ⟨sd.positive, sd.neutral, sd.negative + 1⟩
    else .error (.keyError s)
  | none => .error (.keyError ("sentiment"))

/-- Python `analysis[k]` followed by iteration of the value. -/
def getItems (analysis : JVal) (k : String) : Except PyError (List JItem) :=
  match analysis with
  | .obj fields =>
    match alookup fields k with
    | some v => pyIter v
    | none => .error (.keyError k)
  | _ => .error (.typeError ("value is not subscriptable"))

/-- The running state of the per-review loop of `analyze_reviews`:
the sentiment histogram and the three insertion-ordered frequency
tables. -/
structure LoopAcc where
  sd : SentimentDist
  topics : List (JItem × Nat)
  issues : List (JItem × Nat)
  praises : List (JItem × Nat)
deriving DecidableEq, Repr

/-- Initial loop state, from the literal dict on lines 155–163. -/
def initAcc : LoopAcc := ⟨⟨0, 0, 0⟩, [], [], []⟩

/-- One iteration of the `for _, review in reviews_df.iterrows()` loop
(lines 166–180). -/
def processReview (parse : String → Option JVal) (oracle : String → ClaudeOutcome)
    (acc : LoopAcc) (r : Review) : Except PyError LoopAcc :=
  let analysis := analyze_sentiment parse (oracle r.content)
  (sentimentBump acc.sd analysis).bind (fun sd =>
  (getItems analysis ("topics")).bind (fun ts =>
  (bumpAll acc.topics ts).bind (fun topics =>
  (getItems analysis ("issues")).bind (fun tis =>
  (bumpAll acc.issues tis).bind (fun issues =>
  (getItems analysis ("praises")).bind (fun tps =>
  (bumpAll acc.praises tps).map (fun praises =>
  ⟨sd, topics, issues, praises⟩)))))))

/-- The whole per-review loop, in input order. -/
def processAll (parse : String → Option JVal) (oracle : String → ClaudeOutcome) :
    LoopAcc → List Review → Except PyError LoopAcc
  | acc, [] => .ok acc
  | acc, r :: rs =>
    (processReview parse oracle acc r).bind (fun a => processAll parse oracle a rs)

/-- Stable descending insertion: `x` goes in front of the first element
it is not strictly below, so earlier-listed elements win ties. -/
def insertDescBy {α : Type} (lt : α → α → Bool) (x : α) : List α → List α
  | [] => [x]
  | y :: ys => if lt x y then y :: insertDescBy lt x ys else x :: y :: ys

/-- Stable descending sort — the observable behaviour of Python's
stable `sorted(..., reverse=True)`. -/
def sortDescBy {α : Type} (lt : α → α → Bool) : List α → List α
  | [] => []
  | x :: xs => insertDescBy lt x (sortDescBy lt xs)

/-- Comparison used by `sorted(d.items(), key=lambda x: x[1], reverse=True)`. -/
def ctLt {α : Type} (a b : α × Nat) : Bool := a.2 < b.2

/-- `dict(sorted(d.items(), key=lambda x: x[1], reverse=True))`. -/
def sortByCountDesc {α : Type} (l : List (α × Nat)) : List (α × Nat) :=
  sortDescBy ctLt l

/-- Number of occurrences of a score. -/
def countOcc (xs : List Int) (v : Int) : Nat :=
  (xs.filter (fun w => w == v)).length

/-- Distinct values in first-appearance order. -/
def firstSeen (xs : List Int) : List Int :=
  xs.foldl (fun acc v => if acc.contains v then acc else acc ++ [v]) []

/-- `reviews_df['score'].value_counts().to_dict()`: counts of each
distinct score, ordered by descending count. -/
def value_counts (xs : List Int) : List (Int × Nat) :=
  sortByCountDesc ((firstSeen xs).map (fun v => (v, countOcc xs v)))

/-- The statistics dict returned by `analyze_reviews`. -/
structure Stats where
  total_reviews : Nat
  average_rating : Rat
  rating_distribution : List (Int × Nat)
  sentiment_distribution : SentimentDist
  common_topics : List (JItem × Nat)
  common_issues : List (JItem × Nat)
  common_praises : List (JItem × Nat)
deriving DecidableEq, Repr

/-- `PlayStoreReviewAnalyzer.analyze_reviews` (lines 141–187): guard on
an empty review list, basic statistics, the classification loop, and the
final descending re-sort of the three frequency tables.  The mean of the
scores is the exact rational `sum / count` (`mkRat` — the count is never
zero past the guard). -/
def analyze_reviews (parse : String → Option JVal) (oracle : String → ClaudeOutcome)
    (reviews : List Review) : Except PyError Stats :=
  if reviews.isEmpty then
    .error (.valueError ("Please fetch reviews first using fetch_reviews()"))
  else
    match processAll parse oracle initAcc reviews with
    | .error e => .error e
    | .ok acc =>
      .ok ⟨reviews.length,
           mkRat (reviews.map Review.score).sum reviews.length,
           value_counts (reviews.map Review.score),
           acc.sd,
           sortByCountDesc acc.topics,
           sortByCountDesc acc.issues,
           sortByCountDesc acc.praises⟩

/-- The mutable fields of a `PlayStoreReviewAnalyzer` instance. -/
structure AnalyzerState where
  app_id : String
  lang : String
  country : String
  reviews : List Review
  app_info : Option (List (String × JField))
deriving DecidableEq, Repr

/-- `PlayStoreReviewAnalyzer.fetch_app_info` (lines 34–40): on success
store and return the metadata dict; on any library exception re-raise a
generic `Exception` wrapping the message. -/
def fetch_app_info (infoOracle : Except PyError (List (String × JField)))
    (st : AnalyzerState) :
    Except PyError (AnalyzerState × List (String × JField)) :=
  match infoOracle with
  | .ok info => .ok (⟨st.app_id, st.lang, st.country, st.reviews, some info⟩, info)
  | .error e => .error (.exception (("Error fetching app info: ") ++ e.msg))

/-- `PlayStoreReviewAnalyzer.fetch_reviews` (lines 42–64): on success
store and return the fetched list; on any library exception re-raise a
generic `Exception` wrapping the message.  The oracle is indexed by the
requested count. -/
def fetch_reviews (revOracle : Nat → Except PyError (List Review)) (count : Nat)
    (st : AnalyzerState) : Except PyError (AnalyzerState × List Review) :=
  match revOracle count with
  | .ok rs => .ok (⟨st.app_id, st.lang, st.country, rs, st.app_info⟩, rs)
  | .error e => .error (.exception (("Error fetching reviews: ") ++ e.msg))

/-- The `app_info` block of the report (lines 247–257): the nine
`self.app_info.get(...)` reads. -/
structure ReportAppInfo where
  title : Option JField
  developer : Option JField
  score : Option JField
  reviews : Option JField
  installs : Option JField
  price : Option JField
  size : Option JField
  updated : Option JField
  content_rating : Option JField
deriving DecidableEq, Repr

/-- The serialized report record (lines 246–268). -/
structure Report where
  app_info : ReportAppInfo
  analysis : Stats
  generated_at : String
deriving DecidableEq, Repr

/-- History file entries (`frontend/app.py`): `report_path` is present
only on the entry appended by the analyze-button handler. -/
structure HistEntry where
  app_id : String
  app_name : Option JField
  date : String
  report_path : Option String
deriving DecidableEq, Repr

/-- Contents of one file under the output directory. -/
inductive FileData where
  | reportFile (r : Report)
  | pngFile
  | historyFile (h : List HistEntry)
deriving DecidableEq, Repr

/-- The filesystem: directory names and a path-indexed file map
(directory names and file paths are separate namespaces here). -/
structure FS where
  dirs : List String
  files : List (String × FileData)
deriving DecidableEq, Repr

/-- Helper for `FS.write`: replace in place or append. -/
def writeList (files : List (String × FileData)) (p : String) (d : FileData) :
    List (String × FileData) :=
  if files.any (fun kv => kv.1 = p) then
    files.map (fun kv => if kv.1 = p then (p, d) else kv)
  else
    files ++ [(p, d)]

/-- `open(path, 'w')` followed by a full write: creates or truncates,
never merges. -/
def FS.write (fs : FS) (p : String) (d : FileData) : FS :=
  ⟨fs.dirs, writeList fs.files p d⟩

/-- `os.makedirs(d)`. -/
def FS.makedirs (fs : FS) (d : String) : FS :=
  ⟨fs.dirs ++ [d], fs.files⟩

/-- Build the nine-field `app_info` block from the metadata dict. -/
def buildReportInfo (info : List (String × JField)) : ReportAppInfo :=
  ⟨alookup info ("title"), alookup info ("developer"), alookup info ("score"),
   alookup info ("reviews"), alookup info ("installs"), alookup info ("price"),
   alookup info ("size"), alookup info ("updated"), alookup info ("contentRating")⟩

/-- `PlayStoreReviewAnalyzer.visualize_sentiment` (lines 189–224): guard
on an empty review list, read `self.app_info['title']`, run
`analyze_reviews` twice for the plot data, and save the figure when a
path is given (the chart rendering itself is external). -/
def visualize_sentiment (parse : String → Option JVal) (oracle : String → ClaudeOutcome)
    (st : AnalyzerState) (fs : FS) (save_path : Option String) : Except PyError FS :=
  if st.reviews.isEmpty then
    .error (.valueError ("Please fetch reviews first using fetch_reviews()"))
  else
    match st.app_info with
    | none => .error (.typeError ("NoneType object is not subscriptable"))
    | some info =>
      match alookup info ("title") with
      | none => .error (.keyError ("title"))
      | some _ =>
        (analyze_reviews parse oracle st.reviews).bind (fun _ =>
        (analyze_reviews parse oracle st.reviews).map (fun _ =>
          match save_path with
          | some p => FS.write fs p FileData.pngFile
          | none => fs))

/-- `PlayStoreReviewAnalyzer.generate_report` (lines 226–278) is
embedded as three named stages chained in `generate_report` below.
Besides the path the source returns, the embedding also exposes the new
analyzer state, the filesystem, and the written report record.
This first stage is lines 236–238: fetch app info when unset. -/
def genReportStInfo (infoOracle : Except PyError (List (String × JField)))
    (st : AnalyzerState) : Except PyError AnalyzerState :=
  match st.app_info with
  | none =>
    match fetch_app_info infoOracle st with
    | .ok (st1, _) => .ok st1
    | .error e => .error e
  | some _ => .ok st

/-- Lines 239–240 of `generate_report`: fetch reviews (with the default
count of 100) when the list on the instance is empty. -/
def genReportStRevs (revOracle : Nat → Except PyError (List Review))
    (st1 : AnalyzerState) : Except PyError AnalyzerState :=
  if st1.reviews.isEmpty then
    match fetch_reviews revOracle 100 st1 with
    | .ok (st2, _) => .ok st2
    | .error e => .error e
  else .ok st1

/-- Lines 242–278 of `generate_report`: aggregate, build the report
record, write it to `<output_dir>/<app_id>_report.json`, then render
and save the chart. -/
def genReportCore (parse : String → Option JVal) (oracle : String → ClaudeOutcome)
    (now : String) (st2 : AnalyzerState) (fs1 : FS) (output_dir : String) :
    Except PyError (AnalyzerState × FS × Report × String) :=
  (analyze_reviews parse oracle st2.reviews).bind (fun analysis =>
    match st2.app_info with
    | none => .error (.exception ("AttributeError: NoneType has no get"))
    | some info =>
      let report : Report := ⟨buildReportInfo info, analysis, now⟩
      let report_path := output_dir ++ ("/") ++ st2.app_id ++ ("_report.json")
      let fs2 := FS.write fs1 report_path (FileData.reportFile report)
      (visualize_sentiment parse oracle st2 fs2
          (some (output_dir ++ ("/") ++ st2.app_id ++ ("_sentiment.png")))).map
        (fun fs3 => (st2, fs3, report, report_path)))

/-- The whole method: ensure the output directory exists
(lines 233–234), then chain the three stages. -/
def generate_report (infoOracle : Except PyError (List (String × JField)))
    (revOracle : Nat → Except PyError (List Review))
    (parse : String → Option JVal) (oracle : String → ClaudeOutcome)
    (now : String) (st : AnalyzerState) (fs : FS) (output_dir : String) :
    Except PyError (AnalyzerState × FS × Report × String) :=
  let fs1 := if fs.dirs.contains output_dir then fs else FS.makedirs fs output_dir
  (genReportStInfo infoOracle st).bind (fun st1 =>
  (genReportStRevs revOracle st1).bind (fun st2 =>
  genReportCore parse oracle now st2 fs1 output_dir))

/-- `analyze_reviews` as a method on the instance state: the source
method assigns to no `self` field, so its state-passing form returns the
state it was given. -/
def AnalyzerState.analyzeReviews (parse : String → Option JVal)
    (oracle : String → ClaudeOutcome) (st : AnalyzerState) :
    Except PyError (AnalyzerState × Stats) :=
  match analyze_reviews parse oracle st.reviews with
  | .ok stats => .ok (st, stats)
  | .error e => .error e

/-- Python `s.endswith(suffix)`. -/
def strEndsWith (s suffix : String) : Bool :=
  suffix.toList.isSuffixOf s.toList

/-- Python `s.startswith(pre)`. -/
def strStartsWith (s pre : String) : Bool :=
  pre.toList.isPrefixOf s.toList

/-- Drop the first `n` characters. -/
def strDrop (s : String) (n : Nat) : String :=
  String.mk (s.toList.drop n)

/-- Drop the last `n` characters. -/
def strDropRight (s : String) (n : Nat) : String :=
  String.mk (s.toList.take (s.toList.length - n))

/-- Python string `<` (lexicographic by code point). -/
def listStrLt : List Char → List Char → Bool
  | [], [] => false
  | [], _ :: _ => true
  | _ :: _, [] => false
  | a :: as, b :: bs =>
    if a.toNat < b.toNat then true
    else if b.toNat < a.toNat then false
    else listStrLt as bs

/-- Comparison used by `sorted(history, key=lambda x: x['date'], reverse=True)`. -/
def dateLt (a b : HistEntry) : Bool := listStrLt a.date.toList b.date.toList

/-- `os.listdir("reports")`: the files under the reports directory,
with the directory part of the path stripped. -/
def listdirReports (fs : FS) : List (String × FileData) :=
  fs.files.filterMap (fun kv =>
    if strStartsWith kv.1 ("reports/") then some (strDrop kv.1 8, kv.2) else none)

/-- One entry of the rebuilt history: derived from a loaded report file;
`file.replace('_report.json', '')` recovers the app id. -/
def histEntryOfReport (fileName : String) (d : FileData) : Option HistEntry :=
  match d with
  | .reportFile r => some ⟨strDropRight fileName 12, r.app_info.title, r.generated_at, none⟩
  | _ => none

/-- `get_analysis_history` (frontend lines 63–79): scan the reports
directory for `*_report.json` files, build one entry per report, and
sort by date descending. -/
def get_analysis_history (fs : FS) : List HistEntry :=
  sortDescBy dateLt ((listdirReports fs).filterMap (fun kv =>
    if strEndsWith kv.1 ("_report.json") then histEntryOfReport kv.1 kv.2 else none))

/-- `save_history` (frontend lines 81–85): overwrite
`reports/analysis_history.json` with the given list. -/
def save_history (history : List HistEntry) (fs : FS) : FS :=
  FS.write fs ("reports/analysis_history.json") (FileData.historyFile history)

/-- Load the current contents of the history file. -/
def historyOf (fs : FS) : Option (List HistEntry) :=
  match alookup fs.files ("reports/analysis_history.json") with
  | some (.historyFile h) => some h
  | _ => none

/-- Last entry of the history file, defaulting to a blank entry. -/
def lastEntryOf (fs : FS) : HistEntry :=
  ((historyOf fs).getD []).getLastD ⟨"", none, "", none⟩

/-- The analyze-button handler of the frontend (`main`, lines 318–345,
"All Reviews" branch): construct the analyzer, fetch metadata and
reviews, generate the report, rebuild the history from the report files,
append one entry for this run, and overwrite the history file. -/
def runAnalysis (infoOracle : Except PyError (List (String × JField)))
    (revOracle : Nat → Except PyError (List Review))
    (parse : String → Option JVal) (oracle : String → ClaudeOutcome)
    (nowIso nowFmt : String) (app_id lang country : String) (count : Nat)
    (fs : FS) : Except PyError FS :=
  let st0 : AnalyzerState := ⟨app_id, lang, country, [], none⟩
  (fetch_app_info infoOracle st0).bind (fun si =>
  (fetch_reviews revOracle count si.1).bind (fun sr =>
  (generate_report infoOracle revOracle parse oracle nowIso sr.1 fs ("reports")).bind
    (fun out =>
      let st3 := out.1
      let fs1 := out.2.1
      let report_path := out.2.2.2
      let history := get_analysis_history fs1
      match st3.app_info with
      | none => .error (.typeError ("NoneType object is not subscriptable"))
      | some info =>
        match alookup info ("title") with
        | none => .error (.keyError ("title"))
        | some titleV =>
          .ok (save_history
            (history ++ [⟨app_id, some titleV, nowFmt, some report_path⟩]) fs1))))

/-- A well-formed positive judgment used as a stub model response. -/
def posJudg : JVal :=
  JVal.obj [(("sentiment"), JField.str ("positive")),
            (("topics"), JField.arr [JItem.str ("ui"), JItem.str ("speed")]),
            (("issues"), JField.arr []),
            (("praises"), JField.arr [JItem.str ("fast")])]

/-- A well-formed negative judgment used as a stub model response. -/
def negJudg : JVal :=
  JVal.obj [(("sentiment"), JField.str ("negative")),
            (("topics"), JField.arr [JItem.str ("ui")]),
            (("issues"), JField.arr [JItem.str ("crash")]),
            (("praises"), JField.arr [])]

/-- Fields of a judgment whose model-reported sentiment is `mixed`. -/
def mixedFields : List (String × JField) :=
  [(("sentiment"), JField.str ("mixed")),
   (("topics"), JField.arr []),
   (("issues"), JField.arr []),
   (("praises"), JField.arr [])]

/-- Stub `json.loads` oracle for the concrete runs. -/
def stubParse : String → Option JVal := fun s =>
  if s = "{pos}" then some posJudg
  else if s = "{neg}" then some negJudg
  else if s = "{mix}" then some (JVal.obj mixedFields)
  else none

/-- Stub model oracle: deterministic per review text. -/
def stubOracle : String → ClaudeOutcome := fun t =>
  if t = "great" then ClaudeOutcome.response ("{pos}")
  else ClaudeOutcome.response ("{neg}")

/-- The five-star review of the specification scenario. -/
def greatReview : Review := ⟨5, ("great")⟩

/-- The one-star review of the specification scenario. -/
def badReview : Review := ⟨1, ("bad")⟩

/-- Empty filesystem. -/
def fs0 : FS := ⟨[], []⟩

/-- A minimal metadata dict (the report builder and the chart only need
`title` to be present). -/
def infoA : List (String × JField) := [(("title"), JField.str ("App X"))]

/-- Review oracle that always returns one five-star review. -/
def roOne : Nat → Except PyError (List Review) := fun _ => .ok [greatReview]

/-- Analyzer state with reviews already fetched and metadata present. -/
def stReady : AnalyzerState := ⟨("app.x"), ("en"), ("us"), [greatReview], some infoA⟩

/-- Analyzer state with an empty review list but metadata present. -/
def stEmptyReviews : AnalyzerState := ⟨("app.x"), ("en"), ("us"), [], some infoA⟩

/-- Analyzer state as the constructor leaves it. -/
def stFresh : AnalyzerState := ⟨("com.example.app"), ("en"), ("us"), [], none⟩

/-- Review oracle that always fails with a timeout. -/
def roTimeout : Nat → Except PyError (List Review) := fun _ =>
  .error (PyError.ioError ("timeout"))

/-- First frontend analysis run of the history scenario. -/
def c9run1 : Except PyError FS :=
  runAnalysis (.ok infoA) roOne stubParse stubOracle
    ("2024-01-01T00:00:00") ("2024-01-01 00:00:00")
    ("app.x") ("en") ("us") 100 fs0

/-- Second frontend analysis run of the history scenario, for the same
app identifier, on the filesystem the first run left behind. -/
def c9run2 : Except PyError FS :=
  c9run1.bind (fun fs =>
    runAnalysis (.ok infoA) roOne stubParse stubOracle
      ("2024-02-02T00:00:00") ("2024-02-02 00:00:00")
      ("app.x") ("en") ("us") 100 fs)

/-- The entry the first run appends to the history file. -/
def c9appended1 : HistEntry :=
  ⟨("app.x"), some (JField.str ("App X")), ("2024-01-01 00:00:00"),
   some ("reports/app.x_report.json")⟩

deriving instance DecidableEq for Except

/-- Total of the three sentiment buckets. -/
def sdSum (sd : SentimentDist) : Nat := sd.positive + sd.neutral + sd.negative

/-- Decidable check of the claimed ordering law: every adjacent pair of
a frequency table has a non-increasing count. -/
def sortedDescB {α : Type} : List (α × Nat) → Bool
  | [] => true
  | [_] => true
  | x :: y :: rest => (decide (y.2 ≤ x.2)) && sortedDescB (y :: rest)

/-- Decidable check of the claimed stability law: for every count value
occurring in either table, the entries carrying that count appear in
`out` exactly as they appear in `inp` (same elements, same order). -/
def stableFilterB {α : Type} [DecidableEq α] (out inp : List (α × Nat)) : Bool :=
  ((out ++ inp).map Prod.snd).all (fun c =>
    decide (out.filter (fun y => y.2 == c) = inp.filter (fun y => y.2 == c)))

/-- The loop state after the classification loop of `analyze_reviews`,
read off the loop itself (defaulting to the initial state when the loop
raised). -/
def accOf (parse : String → Option JVal) (oracle : String → ClaudeOutcome)
    (reviews : List Review) : LoopAcc :=
  (processAll parse oracle initAcc reviews).toOption.getD initAcc

/-- Statistics of the two-review specification scenario. -/
def statsTwo : Stats :=
  ⟨2, 3, [(5, 1), (1, 1)], ⟨1, 0, 1⟩,
   [(JItem.str ("ui"), 2), (JItem.str ("speed"), 1)],
   [(JItem.str ("crash"), 1)],
   [(JItem.str ("fast"), 1)]⟩

/-- Statistics of the single-review run used by several witnesses. -/
def statsOne : Stats :=
  ⟨1, 5, [(5, 1)], ⟨1, 0, 0⟩,
   [(JItem.str ("ui"), 1), (JItem.str ("speed"), 1)],
   [],
   [(JItem.str ("fast"), 1)]⟩

/-- The report `generate_report` writes for `stReady` at a given time. -/
def reportOne (now : String) : Report :=
  ⟨⟨some (JField.str ("App X")), none, none, none, none, none, none, none, none⟩,
   statsOne, now⟩

/-- Filesystem after the first concrete `generate_report` call. -/
def c7fs1 : FS :=
  ⟨["reports"],
   [(("reports/app.x_report.json"), FileData.reportFile (reportOne ("T1"))),
    (("reports/app.x_sentiment.png"), FileData.pngFile)]⟩

/-- Filesystem after the second concrete `generate_report` call. -/
def c7fs2 : FS :=
  ⟨["reports"],
   [(("reports/app.x_report.json"), FileData.reportFile (reportOne ("T2"))),
    (("reports/app.x_sentiment.png"), FileData.pngFile)]⟩

/-- The history entry the first run derives from the report file. -/
def c9derived1 : HistEntry :=
  ⟨("app.x"), some (JField.str ("App X")), ("2024-01-01T00:00:00"), none⟩

/-- The history entry the second run derives from the report file. -/
def c9derived2 : HistEntry :=
  ⟨("app.x"), some (JField.str ("App X")), ("2024-02-02T00:00:00"), none⟩

/-- The entry the second run appends to the history file. -/
def c9appended2 : HistEntry :=
  ⟨("app.x"), some (JField.str ("App X")), ("2024-02-02 00:00:00"),
   some ("reports/app.x_report.json")⟩

/-- Filesystem value produced by the first history-scenario run. -/
def c9fs1val : FS :=
  ⟨["reports"],
   [(("reports/app.x_report.json"),
     FileData.reportFile (reportOne ("2024-01-01T00:00:00"))),
    (("reports/app.x_sentiment.png"), FileData.pngFile),
    (("reports/analysis_history.json"),
     FileData.historyFile [c9derived1, c9appended1])]⟩

theorem exceptBind_ok {ε α β : Type} {m : Except ε α} {f : α → Except ε β} {b : β}
    (h : m.bind f = .ok b) : ∃ a, m = .ok a ∧ f a = .ok b := by
  cases m with
  | ok a => exact ⟨a, rfl, h⟩
  | error e => simp [Except.bind] at h

theorem exceptMap_ok {ε α β : Type} {m : Except ε α} {f : α → β} {b : β}
    (h : m.map f = .ok b) : ∃ a, m = .ok a ∧ f a = b := by
  cases m with
  | ok a =>
    refine ⟨a, rfl, ?_⟩
    simpa [Except.map] using h
  | error e => simp [Except.map] at h

theorem alookup_setField {l : List (String × JField)} {k : String} {w nv : JField}
    (h : alookup l k = some w) : alookup (setField l k nv) k = some nv := by
  induction l with
  | nil => simp [alookup] at h
  | cons p rest ih =>
    obtain ⟨k1, v1⟩ := p
    by_cases hk : k1 = k
    · subst hk
      simp [alookup, setField]
    · simp only [alookup, setField, if_neg hk] at h ⊢
      exact ih h

theorem analyzeSentimentTry_ok_sentiment {parse : String → Option JVal}
    {o : ClaudeOutcome} {v : JVal} (h : analyzeSentimentTry parse o = .ok v) :
    validSentimentB (getSentiment v) = true := by
  cases o with
  | apiError e => simp [analyzeSentimentTry] at h
  | response t =>
    simp only [analyzeSentimentTry] at h
    cases hx : extractJson t with
    | none => rw [hx] at h; simp at h
    | some j =>
      rw [hx] at h
      try dsimp only at h
      cases hp : parse j with
      | none => rw [hp] at h; simp at h
      | some a =>
        rw [hp] at h
        try dsimp only at h
        cases a with
        | str s => simp at h
        | num n => simp at h
        | arr xs => simp at h
        | obj fields =>
          try dsimp only at h
          by_cases hall : requiredKeys.all (hasKey fields) = true
          · rw [if_pos hall] at h
            cases hs : alookup fields ("sentiment") with
            | none => rw [hs] at h; simp at h
            | some w =>
              rw [hs] at h
              try dsimp only at h
              cases w with
              | num n => simp at h
              | arr xs => simp at h
              | obj fs => simp at h
              | str s =>
                try dsimp only at h
                by_cases h4 : s = "positive" ∨ s = "negative" ∨ s = "neutral" ∨ s = "mixed"
                · rw [if_pos h4] at h
                  by_cases hm : s = "mixed"
                  · rw [if_pos hm] at h
                    injection h with h2
                    subst h2
                    have hset : alookup (setField fields ("sentiment") (JField.str ("neutral")))
                        ("sentiment") = some (JField.str ("neutral")) :=
                      alookup_setField hs
                    simp [getSentiment, hset, validSentimentB]
                  · rw [if_neg hm] at h
                    injection h with h2
                    subst h2
                    rcases h4 with h5 | h5 | h5 | h5
                    · subst h5; simp [getSentiment, hs, validSentimentB]
                    · subst h5; simp [getSentiment, hs, validSentimentB]
                    · subst h5; simp [getSentiment, hs, validSentimentB]
                    · exact absurd h5 hm
                · rw [if_neg h4] at h
                  simp at h
          · rw [if_neg hall] at h
            simp at h

theorem analyze_sentiment_valid (parse : String → Option JVal) (o : ClaudeOutcome) :
    validSentimentB (getSentiment (analyze_sentiment parse o)) = true := by
  unfold analyze_sentiment
  cases ht : analyzeSentimentTry parse o with
  | ok a => exact analyzeSentimentTry_ok_sentiment ht
  | error e => rfl

/-- C1.  For every review text, the classifier never raises: whenever
the `try` body of `analyze_sentiment` fails — the API call raised
(`apiError`), no JSON object was found in the response, the JSON was
malformed (`parse` returned `none`), a required key was missing, or the
sentiment value was invalid: these are exactly the error sites of
`analyzeSentimentTry` — the method returns exactly the fallback judgment
`{sentiment: neutral, topics: ["error"], issues: [], praises: []}`. -/
theorem classify_failure_returns_fallback
    (parse : String → Option JVal) (o : ClaudeOutcome) (e : PyError)
    (h : analyzeSentimentTry parse o = .error e) :
    analyze_sentiment parse o =
      JVal.obj [(("sentiment"), JField.str ("neutral")),
                (("topics"), JField.arr [JItem.str ("error")]),
                (("issues"), JField.arr []),
                (("praises"), JField.arr [])] := by
  unfold analyze_sentiment
  rw [h]
  rfl

theorem classify_failure_returns_fallback_witness :
    (analyzeSentimentTry stubParse
        (ClaudeOutcome.apiError (PyError.ioError ("connection reset"))) =
      Except.error (PyError.ioError ("connection reset"))) ∧
    analyze_sentiment stubParse
        (ClaudeOutcome.apiError (PyError.ioError ("connection reset"))) =
      JVal.obj [(("sentiment"), JField.str ("neutral")),
                (("topics"), JField.arr [JItem.str ("error")]),
                (("issues"), JField.arr []),
                (("praises"), JField.arr [])] :=
  ⟨rfl, classify_failure_returns_fallback stubParse
    (ClaudeOutcome.apiError (PyError.ioError ("connection reset")))
    (PyError.ioError ("connection reset")) rfl⟩

/-- C2.  For every model response the judgment returned by the
classifier has a sentiment in {positive, negative, neutral} — never
"mixed", never any other string — and a model-reported "mixed" sentiment
is normalized to "neutral" (the returned judgment is the parsed object
with its sentiment field rewritten in place). -/
theorem classify_sentiment_range_and_mixed
    (parse : String → Option JVal) (o : ClaudeOutcome) (t : String)
    (fields : List (String × JField)) :
    validSentimentB (getSentiment (analyze_sentiment parse o)) = true ∧
    (o = ClaudeOutcome.response t →
     Option.bind (extractJson t) parse = some (JVal.obj fields) →
     requiredKeys.all (hasKey fields) = true →
     alookup fields ("sentiment") = some (JField.str ("mixed")) →
     analyze_sentiment parse o =
       JVal.obj (setField fields ("sentiment") (JField.str ("neutral")))) := by
  refine ⟨analyze_sentiment_valid parse o, ?_⟩
  intro ho hparse hall hsent
  subst ho
  cases hx : extractJson t with
  | none => rw [hx] at hparse; simp [Option.bind] at hparse
  | some j =>
    rw [hx] at hparse
    simp only [Option.bind] at hparse
    unfold analyze_sentiment
    simp only [analyzeSentimentTry]
    rw [hx]
    dsimp only
    rw [hparse]
    dsimp only
    rw [if_pos hall, hsent]
    dsimp only
    rw [if_pos (by simp), if_pos rfl]

theorem classify_sentiment_range_and_mixed_witness :
    validSentimentB (getSentiment (analyze_sentiment stubParse
      (ClaudeOutcome.response ("{mix}")))) = true ∧
    analyze_sentiment stubParse (ClaudeOutcome.response ("{mix}")) =
      JVal.obj (setField mixedFields ("sentiment") (JField.str ("neutral"))) :=
  ⟨(classify_sentiment_range_and_mixed stubParse
      (ClaudeOutcome.response ("{mix}")) ("{mix}") mixedFields).1,
   (classify_sentiment_range_and_mixed stubParse
      (ClaudeOutcome.response ("{mix}")) ("{mix}") mixedFields).2
     rfl (by decide) (by decide) (by decide)⟩

theorem sentimentBump_sum {sd sd' : SentimentDist} {a : JVal}
    (h : sentimentBump sd a = .ok sd') : sdSum sd' = sdSum sd + 1 := by
  unfold sentimentBump at h
  cases hg : getSentiment a with
  | none => rw [hg] at h; simp at h
  | some s =>
    rw [hg] at h
    try dsimp only at h
    by_cases h1 : s = "positive"
    · rw [if_pos h1] at h
      injection h with h2
      subst h2
      simp [sdSum]
      omega
    · rw [if_neg h1] at h
      by_cases h2 : s = "neutral"
      · rw [if_pos h2] at h
        injection h with h3
        subst h3
        simp [sdSum]
        omega
      · rw [if_neg h2] at h
        by_cases h3 : s = "negative"
        · rw [if_pos h3] at h
          injection h with h4
          subst h4
          simp [sdSum]
          omega
        · rw [if_neg h3] at h
          simp at h

theorem processReview_sum {parse : String → Option JVal}
    {oracle : String → ClaudeOutcome} {acc acc' : LoopAcc} {r : Review}
    (h : processReview parse oracle acc r = .ok acc') :
    sdSum acc'.sd = sdSum acc.sd + 1 := by
  unfold processReview at h
  obtain ⟨sd, hsd, h⟩ := exceptBind_ok h
  obtain ⟨ts, hts, h⟩ := exceptBind_ok h
  obtain ⟨topics, htop, h⟩ := exceptBind_ok h
  obtain ⟨tis, htis, h⟩ := exceptBind_ok h
  obtain ⟨issues, hiss, h⟩ := exceptBind_ok h
  obtain ⟨tps, htps, h⟩ := exceptBind_ok h
  obtain ⟨praises, hpra, h⟩ := exceptMap_ok h
  rw [← h]
  exact sentimentBump_sum hsd

theorem processAll_sum {parse : String → Option JVal}
    {oracle : String → ClaudeOutcome} :
    ∀ {rs : List Review} {acc acc' : LoopAcc},
      processAll parse oracle acc rs = .ok acc' →
      sdSum acc'.sd = sdSum acc.sd + rs.length := by
  intro rs
  induction rs with
  | nil =>
    intro acc acc' h
    simp only [processAll] at h
    injection h with h2
    subst h2
    simp
  | cons r rs ih =>
    intro acc acc' h
    simp only [processAll] at h
    obtain ⟨a, ha, h2⟩ := exceptBind_ok h
    have hstep := processReview_sum ha
    have htail := ih h2
    simp only [List.length_cons]
    omega

/-- C3.  For every non-empty review list, the statistics produced by
`analyze_reviews` satisfy: the three entries of the sentiment
distribution (its exactly three buckets positive, neutral, negative)
sum to `total_reviews`, which equals the length of the review list. -/
theorem sentiment_distribution_sums_to_total
    (parse : String → Option JVal) (oracle : String → ClaudeOutcome)
    (reviews : List Review) (stats : Stats)
    (_hne : reviews ≠ [])
    (h : analyze_reviews parse oracle reviews = .ok stats) :
    stats.sentiment_distribution.positive + stats.sentiment_distribution.neutral +
        stats.sentiment_distribution.negative = stats.total_reviews ∧
    stats.total_reviews = reviews.length := by
  unfold analyze_reviews at h
  split at h
  · exact absurd h (by simp)
  · split at h
    · exact absurd h (by simp)
    · rename_i acc heq
      injection h with h2
      subst h2
      refine ⟨?_, rfl⟩
      have hsum := processAll_sum heq
      simp [sdSum, initAcc] at hsum
      simpa [sdSum] using hsum

theorem sentiment_distribution_sums_to_total_witness :
    ([greatReview] ≠ ([] : List Review)) ∧
    (analyze_reviews stubParse stubOracle [greatReview] = Except.ok statsOne) ∧
    (statsOne.sentiment_distribution.positive + statsOne.sentiment_distribution.neutral +
        statsOne.sentiment_distribution.negative = statsOne.total_reviews ∧
      statsOne.total_reviews = ([greatReview] : List Review).length) :=
  ⟨by decide, by decide,
   sentiment_distribution_sums_to_total stubParse stubOracle [greatReview] statsOne
     (by decide) (by decide)⟩

/-- C5 counterexample.  The claim says `generate_report` raises the
"fetch reviews first" precondition error on an analyzer whose review
collection is empty; on this concrete empty-review state the call
succeeds instead (it fetches the reviews itself). -/
theorem generate_report_empty_reviews_succeeds :
    stEmptyReviews.reviews = [] ∧
    isOkB (generate_report (Except.ok infoA) roOne stubParse stubOracle ("T1")
      stEmptyReviews fs0 ("reports")) = true :=
  ⟨rfl, by decide⟩

/-- C5, amended.  `analyze_reviews` invoked with an empty (or unset,
i.e. still `[]`) review collection raises `ValueError("Please fetch
reviews first using fetch_reviews()")` synchronously, before any
classification work; `generate_report`, however, does not raise this
precondition error on an empty review collection — it fetches app info
(when unset) and reviews automatically and proceeds, as the concrete
empty-review run below shows. -/
theorem empty_reviews_guard_amended :
    (∀ (parse : String → Option JVal) (oracle : String → ClaudeOutcome),
      analyze_reviews parse oracle ([] : List Review) =
        Except.error (PyError.valueError ("Please fetch reviews first using fetch_reviews()"))) ∧
    isOkB (generate_report (Except.ok infoA) roOne stubParse stubOracle ("T1")
      stEmptyReviews fs0 ("reports")) = true :=
  ⟨fun _ _ => rfl, by decide⟩

/-- C6.  The two-review scenario: with the stub classifier judging
"great" positive and "bad" negative, aggregation yields
`rating_distribution = {5:1, 1:1}`, `sentiment_distribution =
{positive:1, neutral:0, negative:1}` and `average_rating = 3.0`; and in
general `average_rating` is the unrounded arithmetic mean of the review
scores. -/
theorem aggregate_scenario_and_mean :
    (analyze_reviews stubParse stubOracle [greatReview, badReview] =
      Except.ok statsTwo) ∧
    statsTwo.rating_distribution = [(5, 1), (1, 1)] ∧
    statsTwo.sentiment_distribution = ⟨1, 0, 1⟩ ∧
    statsTwo.average_rating = 3 ∧
    (∀ (parse : String → Option JVal) (oracle : String → ClaudeOutcome)
       (reviews : List Review) (stats : Stats),
      analyze_reviews parse oracle reviews = .ok stats →
      stats.average_rating =
        ((reviews.map Review.score).sum : Rat) / (reviews.length : Rat)) := by
  refine ⟨by decide, by decide, by decide, by decide, ?_⟩
  intro parse oracle reviews stats h
  unfold analyze_reviews at h
  split at h
  · exact absurd h (by simp)
  · split at h
    · exact absurd h (by simp)
    · injection h with h2
      subst h2
      simp [Rat.mkRat_eq_div]

theorem aggregate_scenario_and_mean_witness :
    statsTwo.average_rating =
      ((([greatReview, badReview] : List Review).map Review.score).sum : Rat) /
        (([greatReview, badReview] : List Review).length : Rat) :=
  (aggregate_scenario_and_mean.2.2.2.2) stubParse stubOracle
    [greatReview, badReview] statsTwo aggregate_scenario_and_mean.1

/-- C10.  `analyze_reviews` as a method leaves the analyzer state
unchanged — the source assigns to no `self` field — so all five instance
fields agree before and after, and (the classifier oracles being fixed
functions) a second call on the resulting state returns the very same
statistics. -/
theorem analyze_reviews_preserves_state
    (parse : String → Option JVal) (oracle : String → ClaudeOutcome)
    (st st' : AnalyzerState) (stats : Stats)
    (_hne : st.reviews ≠ [])
    (h : AnalyzerState.analyzeReviews parse oracle st = .ok (st', stats)) :
    st'.reviews = st.reviews ∧ st'.app_info = st.app_info ∧
    st'.app_id = st.app_id ∧ st'.lang = st.lang ∧ st'.country = st.country ∧
    AnalyzerState.analyzeReviews parse oracle st' = .ok (st', stats) := by
  unfold AnalyzerState.analyzeReviews at h ⊢
  cases hr : analyze_reviews parse oracle st.reviews with
  | error e => rw [hr] at h; simp at h
  | ok s =>
    rw [hr] at h
    injection h with h2
    obtain ⟨h3, h4⟩ := Prod.mk.injEq .. |>.mp h2
    subst h3
    subst h4
    rw [hr]
    exact ⟨rfl, rfl, rfl, rfl, rfl, rfl⟩

theorem analyze_reviews_preserves_state_witness :
    (stReady.reviews ≠ []) ∧
    (AnalyzerState.analyzeReviews stubParse stubOracle stReady =
      Except.ok (stReady, statsOne)) ∧
    (stReady.reviews = stReady.reviews ∧ stReady.app_info = stReady.app_info ∧
     stReady.app_id = stReady.app_id ∧ stReady.lang = stReady.lang ∧
     stReady.country = stReady.country ∧
     AnalyzerState.analyzeReviews stubParse stubOracle stReady =
       Except.ok (stReady, statsOne)) :=
  ⟨by decide, by decide,
   analyze_reviews_preserves_state stubParse stubOracle stReady stReady statsOne
     (by decide) (by decide)⟩

theorem mem_insertDescBy {α : Type} (lt : α → α → Bool) (x z : α) :
    ∀ l : List α, z ∈ insertDescBy lt x l ↔ z = x ∨ z ∈ l := by
  intro l
  induction l with
  | nil => simp [insertDescBy]
  | cons y ys ih =>
    by_cases h : lt x y
    · simp only [insertDescBy, if_pos h, List.mem_cons, ih]
      tauto
    · simp only [insertDescBy, if_neg h, List.mem_cons]

theorem mem_sortDescBy {α : Type} (lt : α → α → Bool) (z : α) :
    ∀ l : List α, z ∈ sortDescBy lt l ↔ z ∈ l := by
  intro l
  induction l with
  | nil => simp [sortDescBy]
  | cons y ys ih =>
    simp only [sortDescBy, mem_insertDescBy, ih, List.mem_cons]

theorem pairwise_insertDescBy_ct {α : Type} {x : α × Nat} :
    ∀ {l : List (α × Nat)}, l.Pairwise (fun a b => b.2 ≤ a.2) →
      (insertDescBy ctLt x l).Pairwise (fun a b => b.2 ≤ a.2) := by
  intro l
  induction l with
  | nil => intro _; simp [insertDescBy]
  | cons y ys ih =>
    intro h
    rcases List.pairwise_cons.mp h with ⟨hy, hys⟩
    by_cases hlt : ctLt x y
    · simp only [insertDescBy, if_pos hlt]
      refine List.pairwise_cons.mpr ⟨?_, ih hys⟩
      intro z hz
      rcases (mem_insertDescBy ctLt x z ys).mp hz with rfl | hzys
      · exact Nat.le_of_lt (by simpa [ctLt] using hlt)
      · exact hy z hzys
    · simp only [insertDescBy, if_neg hlt]
      have hxy : y.2 ≤ x.2 := by
        simp [ctLt] at hlt
        omega
      refine List.pairwise_cons.mpr ⟨?_, h⟩
      intro z hz
      rcases List.mem_cons.mp hz with rfl | hzys
      · exact hxy
      · exact le_trans (hy z hzys) hxy

theorem pairwise_sortDescBy_ct {α : Type} :
    ∀ l : List (α × Nat), (sortDescBy ctLt l).Pairwise (fun a b => b.2 ≤ a.2) := by
  intro l
  induction l with
  | nil => simp [sortDescBy]
  | cons x xs ih =>
    simp only [sortDescBy]
    exact pairwise_insertDescBy_ct ih

theorem sortedDescB_of_pairwise {α : Type} :
    ∀ {l : List (α × Nat)}, l.Pairwise (fun a b => b.2 ≤ a.2) →
      sortedDescB l = true := by
  intro l
  induction l with
  | nil => intro _; rfl
  | cons x xs ih =>
    intro h
    rcases List.pairwise_cons.mp h with ⟨hx, hxs⟩
    cases xs with
    | nil => rfl
    | cons y ys =>
      have h1 : y.2 ≤ x.2 := hx y (List.mem_cons_self y ys)
      have h2 := ih hxs
      simp only [sortedDescB, Bool.and_eq_true, decide_eq_true_eq]
      exact ⟨h1, h2⟩

theorem filter_insertDescBy_self {α : Type} (x : α × Nat) :
    ∀ l : List (α × Nat),
      (insertDescBy ctLt x l).filter (fun y => y.2 == x.2) =
        x :: l.filter (fun y => y.2 == x.2) := by
  intro l
  induction l with
  | nil => simp [insertDescBy]
  | cons y ys ih =>
    by_cases h : ctLt x y
    · have h2 : x.2 < y.2 := by simpa [ctLt] using h
      have hy : (y.2 == x.2) = false := by
        simp only [beq_eq_false_iff_ne, ne_eq]
        omega
      simp [insertDescBy, if_pos h, List.filter_cons, hy, ih]
    · simp [insertDescBy, if_neg h, List.filter_cons]

theorem filter_insertDescBy_ne {α : Type} (x : α × Nat) (c : Nat) (hc : x.2 ≠ c) :
    ∀ l : List (α × Nat),
      (insertDescBy ctLt x l).filter (fun y => y.2 == c) =
        l.filter (fun y => y.2 == c) := by
  have hx : (x.2 == c) = false := by
    simp only [beq_eq_false_iff_ne, ne_eq]
    exact hc
  intro l
  induction l with
  | nil => simp [insertDescBy, hx]
  | cons y ys ih =>
    by_cases h : ctLt x y
    · simp [insertDescBy, if_pos h, List.filter_cons, ih]
    · simp [insertDescBy, if_neg h, List.filter_cons, hx]

theorem filter_sortDescBy_ct {α : Type} :
    ∀ (l : List (α × Nat)) (c : Nat),
      (sortDescBy ctLt l).filter (fun y => y.2 == c) =
        l.filter (fun y => y.2 == c) := by
  intro l
  induction l with
  | nil => intro c; rfl
  | cons x xs ih =>
    intro c
    by_cases hc : x.2 = c
    · subst hc
      simp only [sortDescBy]
      rw [filter_insertDescBy_self x (sortDescBy ctLt xs), ih x.2]
      simp [List.filter_cons]
    · have hx : (x.2 == c) = false := by
        simp only [beq_eq_false_iff_ne, ne_eq]
        exact hc
      simp only [sortDescBy]
      rw [filter_insertDescBy_ne x c hc (sortDescBy ctLt xs), ih c]
      simp [List.filter_cons, hx]

theorem stableFilterB_sort {α : Type} [DecidableEq α] (l : List (α × Nat)) :
    stableFilterB (sortByCountDesc l) l = true := by
  unfold stableFilterB sortByCountDesc
  rw [List.all_eq_true]
  intro c _
  simp only [decide_eq_true_eq]
  exact filter_sortDescBy_ct l c

/-- C4.  For every run of `analyze_reviews` that returns statistics,
each of the three frequency tables is the stable descending re-sort of
the table the counting loop accumulated (whose entries are in first-seen
order): every adjacent pair has non-increasing counts (`sortedDescB`),
and for every count value the entries carrying it appear exactly in
their first-seen order (`stableFilterB` against the accumulated
table). -/
theorem frequency_tables_sorted_and_stable
    (parse : String → Option JVal) (oracle : String → ClaudeOutcome)
    (reviews : List Review) (stats : Stats)
    (_hne : reviews ≠ [])
    (h : analyze_reviews parse oracle reviews = .ok stats) :
    stats.common_topics = sortByCountDesc (accOf parse oracle reviews).topics ∧
    stats.common_issues = sortByCountDesc (accOf parse oracle reviews).issues ∧
    stats.common_praises = sortByCountDesc (accOf parse oracle reviews).praises ∧
    sortedDescB stats.common_topics = true ∧
    sortedDescB stats.common_issues = true ∧
    sortedDescB stats.common_praises = true ∧
    stableFilterB stats.common_topics (accOf parse oracle reviews).topics = true ∧
    stableFilterB stats.common_issues (accOf parse oracle reviews).issues = true ∧
    stableFilterB stats.common_praises (accOf parse oracle reviews).praises = true := by
  unfold analyze_reviews at h
  split at h
  · exact absurd h (by simp)
  · split at h
    · exact absurd h (by simp)
    · rename_i acc heq
      injection h with h2
      subst h2
      have haccOf : accOf parse oracle reviews = acc := by
        unfold accOf
        rw [heq]
        rfl
      rw [haccOf]
      refine ⟨rfl, rfl, rfl, ?_, ?_, ?_, ?_, ?_, ?_⟩
      · exact sortedDescB_of_pairwise (pairwise_sortDescBy_ct acc.topics)
      · exact sortedDescB_of_pairwise (pairwise_sortDescBy_ct acc.issues)
      · exact sortedDescB_of_pairwise (pairwise_sortDescBy_ct acc.praises)
      · exact stableFilterB_sort acc.topics
      · exact stableFilterB_sort acc.issues
      · exact stableFilterB_sort acc.praises

theorem frequency_tables_sorted_and_stable_witness :
    ([greatReview, badReview] ≠ ([] : List Review)) ∧
    (analyze_reviews stubParse stubOracle [greatReview, badReview] =
      Except.ok statsTwo) ∧
    (statsTwo.common_topics =
        sortByCountDesc (accOf stubParse stubOracle [greatReview, badReview]).topics ∧
     statsTwo.common_issues =
        sortByCountDesc (accOf stubParse stubOracle [greatReview, badReview]).issues ∧
     statsTwo.common_praises =
        sortByCountDesc (accOf stubParse stubOracle [greatReview, badReview]).praises ∧
     sortedDescB statsTwo.common_topics = true ∧
     sortedDescB statsTwo.common_issues = true ∧
     sortedDescB statsTwo.common_praises = true ∧
     stableFilterB statsTwo.common_topics
        (accOf stubParse stubOracle [greatReview, badReview]).topics = true ∧
     stableFilterB statsTwo.common_issues
        (accOf stubParse stubOracle [greatReview, badReview]).issues = true ∧
     stableFilterB statsTwo.common_praises
        (accOf stubParse stubOracle [greatReview, badReview]).praises = true) :=
  ⟨by decide, by decide,
   frequency_tables_sorted_and_stable stubParse stubOracle
     [greatReview, badReview] statsTwo (by decide) (by decide)⟩

theorem alookup_none_of_any_false {β : Type} {l : List (String × β)} {p : String}
    (h : l.any (fun kv => kv.1 = p) = false) : alookup l p = none := by
  induction l with
  | nil => rfl
  | cons kv rest ih =>
    obtain ⟨k1, v1⟩ := kv
    simp only [List.any_cons, Bool.or_eq_false_iff] at h
    obtain ⟨h1, h2⟩ := h
    simp only [alookup, if_neg (by simpa using h1)]
    exact ih h2

theorem alookup_append_right {β : Type} {l : List (String × β)} {p : String} {v : β}
    (h : alookup l p = none) : alookup (l ++ [(p, v)]) p = some v := by
  induction l with
  | nil => simp [alookup]
  | cons kv rest ih =>
    obtain ⟨k1, v1⟩ := kv
    by_cases hk : k1 = p
    · simp [alookup, hk] at h
    · simp only [alookup, if_neg hk] at h
      simp only [List.cons_append, alookup, if_neg hk]
      exact ih h

theorem alookup_writeList_self (files : List (String × FileData)) (p : String)
    (d : FileData) : alookup (writeList files p d) p = some d := by
  unfold writeList
  by_cases h : files.any (fun kv => kv.1 = p) = true
  · rw [if_pos h]
    induction files with
    | nil => simp at h
    | cons kv rest ih =>
      obtain ⟨k1, v1⟩ := kv
      simp only [List.any_cons, Bool.or_eq_true] at h
      simp only [List.map_cons]
      try dsimp only
      by_cases hk : k1 = p
      · rw [if_pos hk]
        simp [alookup]
      · rw [if_neg hk]
        simp only [alookup, if_neg hk]
        rcases h with h | h
        · exact absurd (by simpa using h) hk
        · exact ih h
  · rw [if_neg h]
    exact alookup_append_right
      (alookup_none_of_any_false (Bool.of_not_eq_true h))

theorem alookup_writeList_ne (files : List (String × FileData)) (p : String)
    (d : FileData) (q : String) (hq : q ≠ p) :
    alookup (writeList files p d) q = alookup files q := by
  unfold writeList
  by_cases h : files.any (fun kv => kv.1 = p) = true
  · rw [if_pos h]
    clear h
    induction files with
    | nil => rfl
    | cons kv rest ih =>
      obtain ⟨k1, v1⟩ := kv
      simp only [List.map_cons]
      try dsimp only
      by_cases hk : k1 = p
      · rw [if_pos hk]
        simp only [alookup]
        rw [if_neg (Ne.symm hq), if_neg (by rw [hk]; exact Ne.symm hq)]
        exact ih
      · rw [if_neg hk]
        simp only [alookup]
        by_cases hq2 : k1 = q
        · rw [if_pos hq2, if_pos hq2]
        · rw [if_neg hq2, if_neg hq2]
          exact ih
  · rw [if_neg h]
    clear h
    induction files with
    | nil => simp [alookup, Ne.symm hq]
    | cons kv rest ih =>
      obtain ⟨k1, v1⟩ := kv
      simp only [List.cons_append, alookup]
      by_cases hq2 : k1 = q
      · rw [if_pos hq2, if_pos hq2]
      · rw [if_neg hq2, if_neg hq2]
        exact ih

theorem dirs_after_ensure (fs : FS) (dir : String) :
    ((if fs.dirs.contains dir then fs else FS.makedirs fs dir)).dirs.contains dir
      = true := by
  by_cases h : fs.dirs.contains dir = true
  · rw [if_pos h]
    exact h
  · rw [if_neg h]
    simp [FS.makedirs]

theorem fetch_app_info_ok {io : Except PyError (List (String × JField))}
    {st st' : AnalyzerState} {info : List (String × JField)}
    (h : fetch_app_info io st = .ok (st', info)) :
    st' = ⟨st.app_id, st.lang, st.country, st.reviews, some info⟩ := by
  cases io with
  | ok i =>
    simp only [fetch_app_info] at h
    injection h with h2
    injection h2 with ha hb
    subst hb
    exact ha.symm
  | error e => simp [fetch_app_info] at h

theorem fetch_reviews_ok {ro : Nat → Except PyError (List Review)} {count : Nat}
    {st st' : AnalyzerState} {rs : List Review}
    (h : fetch_reviews ro count st = .ok (st', rs)) :
    st' = ⟨st.app_id, st.lang, st.country, rs, st.app_info⟩ := by
  unfold fetch_reviews at h
  cases hr : ro count with
  | ok l =>
    rw [hr] at h
    try dsimp only at h
    injection h with h2
    injection h2 with ha hb
    subst hb
    exact ha.symm
  | error e =>
    rw [hr] at h
    simp at h

theorem genReportStInfo_ok {io : Except PyError (List (String × JField))}
    {st st1 : AnalyzerState} (h : genReportStInfo io st = .ok st1) :
    st1.app_id = st.app_id ∧ st1.lang = st.lang ∧ st1.country = st.country ∧
    st1.reviews = st.reviews := by
  unfold genReportStInfo at h
  cases hsi : st.app_info with
  | some i =>
    rw [hsi] at h
    try dsimp only at h
    injection h with h2
    subst h2
    exact ⟨rfl, rfl, rfl, rfl⟩
  | none =>
    rw [hsi] at h
    try dsimp only at h
    cases hfa : fetch_app_info io st with
    | error e => rw [hfa] at h; simp at h
    | ok pair =>
      rw [hfa] at h
      obtain ⟨sA, iA⟩ := pair
      try dsimp only at h
      injection h with h2
      subst h2
      have hA := fetch_app_info_ok hfa
      rw [hA]
      exact ⟨rfl, rfl, rfl, rfl⟩

theorem genReportStRevs_ok {ro : Nat → Except PyError (List Review)}
    {st1 st2 : AnalyzerState} (h : genReportStRevs ro st1 = .ok st2) :
    st2.app_id = st1.app_id ∧ st2.lang = st1.lang ∧ st2.country = st1.country ∧
    st2.app_info = st1.app_info := by
  unfold genReportStRevs at h
  split at h
  · cases hfr : fetch_reviews ro 100 st1 with
    | error e => rw [hfr] at h; simp at h
    | ok pair =>
      rw [hfr] at h
      obtain ⟨sB, rB⟩ := pair
      try dsimp only at h
      injection h with h2
      subst h2
      have hB := fetch_reviews_ok hfr
      rw [hB]
      exact ⟨rfl, rfl, rfl, rfl⟩
  · injection h with h2
    subst h2
    exact ⟨rfl, rfl, rfl, rfl⟩

theorem visualize_sentiment_ok {parse : String → Option JVal}
    {oracle : String → ClaudeOutcome} {st : AnalyzerState} {fs : FS}
    {p : String} {fs' : FS}
    (h : visualize_sentiment parse oracle st fs (some p) = .ok fs') :
    fs' = FS.write fs p FileData.pngFile := by
  unfold visualize_sentiment at h
  split at h
  · simp at h
  · cases hai : st.app_info with
    | none => rw [hai] at h; simp at h
    | some info =>
      rw [hai] at h
      try dsimp only at h
      cases ht : alookup info ("title") with
      | none => rw [ht] at h; simp at h
      | some v =>
        rw [ht] at h
        try dsimp only at h
        obtain ⟨a1, hb1, h⟩ := exceptBind_ok h
        obtain ⟨a2, hb2, h3⟩ := exceptMap_ok h
        exact h3.symm

theorem report_path_ne_png (dir id : String) :
    ¬ (dir ++ ("/") ++ id ++ ("_sentiment.png") =
        dir ++ ("/") ++ id ++ ("_report.json")) := by
  intro heq
  have h2 := congrArg String.length heq
  have l1 : ("_sentiment.png" : String).length = 14 := rfl
  have l2 : ("_report.json" : String).length = 12 := rfl
  simp only [String.length_append, l1, l2] at h2
  omega

theorem genReportCore_ok {parse : String → Option JVal}
    {oracle : String → ClaudeOutcome} {now : String} {st2 : AnalyzerState}
    {fs1 : FS} {dir : String} {st' : AnalyzerState} {fs' : FS} {r : Report}
    {p : String}
    (h : genReportCore parse oracle now st2 fs1 dir = .ok (st', fs', r, p)) :
    st' = st2 ∧ p = dir ++ ("/") ++ st2.app_id ++ ("_report.json") ∧
    fs' = FS.write (FS.write fs1 p (FileData.reportFile r))
      (dir ++ ("/") ++ st2.app_id ++ ("_sentiment.png")) FileData.pngFile := by
  unfold genReportCore at h
  obtain ⟨analysis, hana, h⟩ := exceptBind_ok h
  cases hai : st2.app_info with
  | none => rw [hai] at h; simp at h
  | some info =>
    rw [hai] at h
    try dsimp only at h
    obtain ⟨fs3, hviz, htuple⟩ := exceptMap_ok h
    have hfs3 := visualize_sentiment_ok hviz
    injection htuple with ha hrest
    injection hrest with hb hrest2
    injection hrest2 with hc hd
    subst ha
    subst hb
    subst hc
    subst hd
    exact ⟨rfl, rfl, hfs3⟩

theorem generate_report_ok {io : Except PyError (List (String × JField))}
    {ro : Nat → Except PyError (List Review)} {parse : String → Option JVal}
    {oracle : String → ClaudeOutcome} {now : String} {st : AnalyzerState}
    {fs : FS} {dir : String} {st' : AnalyzerState} {fs' : FS} {r : Report}
    {p : String}
    (h : generate_report io ro parse oracle now st fs dir = .ok (st', fs', r, p)) :
    st'.app_id = st.app_id ∧
    p = dir ++ ("/") ++ st.app_id ++ ("_report.json") ∧
    alookup fs'.files p = some (FileData.reportFile r) ∧
    fs'.dirs.contains dir = true := by
  unfold generate_report at h
  try dsimp only at h
  obtain ⟨st1, h1, h⟩ := exceptBind_ok h
  obtain ⟨st2, h2, h⟩ := exceptBind_ok h
  obtain ⟨hA1, _, _, _⟩ := genReportStInfo_ok h1
  obtain ⟨hA2, _, _, _⟩ := genReportStRevs_ok h2
  obtain ⟨hst, hp0, hfs⟩ := genReportCore_ok h
  refine ⟨by rw [hst, hA2, hA1], by rw [hp0, hA2, hA1], ?_, ?_⟩
  · rw [hfs]
    show alookup (writeList (writeList _ p (FileData.reportFile r)) _ _) p = _
    rw [alookup_writeList_ne _ _ _ _
      (by rw [hp0]; exact fun c => report_path_ne_png dir st2.app_id c.symm)]
    exact alookup_writeList_self _ _ _
  · rw [hfs]
    exact dirs_after_ensure fs dir

/-- C7.  Persisting a report ensures the output directory exists and
writes to `<output_dir>/<app_id>_report.json`; two successive
`generate_report` runs for the same analyzer write to the same path, and
after the second run that path holds exactly the second run's report —
the first run's content is gone, nothing is merged. -/
theorem report_overwrite_no_merge
    (io1 io2 : Except PyError (List (String × JField)))
    (ro1 ro2 : Nat → Except PyError (List Review))
    (p1f p2f : String → Option JVal) (or1 or2 : String → ClaudeOutcome)
    (now1 now2 : String) (st : AnalyzerState) (fs : FS) (dir : String)
    (st1 : AnalyzerState) (fs1 : FS) (r1 : Report) (pa1 : String)
    (st2 : AnalyzerState) (fs2 : FS) (r2 : Report) (pa2 : String)
    (h1 : generate_report io1 ro1 p1f or1 now1 st fs dir = .ok (st1, fs1, r1, pa1))
    (h2 : generate_report io2 ro2 p2f or2 now2 st1 fs1 dir = .ok (st2, fs2, r2, pa2)) :
    pa1 = dir ++ ("/") ++ st.app_id ++ ("_report.json") ∧
    pa2 = pa1 ∧
    alookup fs2.files pa2 = some (FileData.reportFile r2) ∧
    fs1.dirs.contains dir = true ∧
    fs2.dirs.contains dir = true := by
  obtain ⟨ha1, hp1, hl1, hd1⟩ := generate_report_ok h1
  obtain ⟨ha2, hp2, hl2, hd2⟩ := generate_report_ok h2
  refine ⟨hp1, ?_, hl2, hd1, hd2⟩
  rw [hp2, hp1, ha1]

theorem report_overwrite_no_merge_witness :
    (generate_report (Except.ok infoA) roOne stubParse stubOracle ("T1")
        stReady fs0 ("reports") =
      Except.ok (stReady, c7fs1, reportOne ("T1"), ("reports/app.x_report.json"))) ∧
    (generate_report (Except.ok infoA) roOne stubParse stubOracle ("T2")
        stReady c7fs1 ("reports") =
      Except.ok (stReady, c7fs2, reportOne ("T2"), ("reports/app.x_report.json"))) ∧
    (("reports/app.x_report.json" : String) =
        ("reports") ++ ("/") ++ stReady.app_id ++ ("_report.json") ∧
     ("reports/app.x_report.json" : String) = ("reports/app.x_report.json") ∧
     alookup c7fs2.files ("reports/app.x_report.json") =
        some (FileData.reportFile (reportOne ("T2"))) ∧
     c7fs1.dirs.contains ("reports") = true ∧
     c7fs2.dirs.contains ("reports") = true) :=
  ⟨by decide, by decide,
   report_overwrite_no_merge (Except.ok infoA) (Except.ok infoA) roOne roOne
     stubParse stubParse stubOracle stubOracle ("T1") ("T2") stReady fs0 ("reports")
     stReady c7fs1 (reportOne ("T1")) ("reports/app.x_report.json")
     stReady c7fs2 (reportOne ("T2")) ("reports/app.x_report.json")
     (by decide) (by decide)⟩

/-- C8 counterexample.  The claim says a non-resolving identifier makes
`fetch_app_info` fail with `LookupError` and `fetch_reviews` fail with
`LookupError`/`IOError`.  On this concrete failing oracle both methods
re-raise a generic `Exception` wrapping the message — not a
`LookupError`, not an `IOError`. -/
theorem fetch_failure_not_lookup_error :
    fetch_app_info (Except.error (PyError.notFoundError ("App not found(404)."))) stFresh =
      Except.error (PyError.exception ("Error fetching app info: App not found(404).")) ∧
    PyError.isLookupError
      (PyError.exception ("Error fetching app info: App not found(404).")) = false ∧
    fetch_reviews roTimeout 100 stFresh =
      Except.error (PyError.exception ("Error fetching reviews: timeout")) ∧
    PyError.isLookupError (PyError.exception ("Error fetching reviews: timeout")) = false ∧
    PyError.isIOError (PyError.exception ("Error fetching reviews: timeout")) = false := by
  refine ⟨?_, rfl, ?_, rfl, rfl⟩ <;> decide

/-- C8, amended.  On every upstream failure, `fetch_app_info` and
`fetch_reviews` fail by re-raising a generic `Exception` whose message
wraps the underlying error ("Error fetching app info: ..." /
"Error fetching reviews: ..."), not a `LookupError`/`IOError`; the
single failed call propagates immediately to the caller — each method
invokes its upstream call exactly once, with no retry. -/
theorem fetch_failure_wrapped_exception
    (e : PyError) (st : AnalyzerState)
    (ro : Nat → Except PyError (List Review)) (count : Nat) :
    fetch_app_info (Except.error e) st =
      Except.error (PyError.exception (("Error fetching app info: ") ++ e.msg)) ∧
    (ro count = Except.error e →
      fetch_reviews ro count st =
        Except.error (PyError.exception (("Error fetching reviews: ") ++ e.msg))) := by
  refine ⟨rfl, ?_⟩
  intro h
  unfold fetch_reviews
  rw [h]

theorem fetch_failure_wrapped_exception_witness :
    (roTimeout 100 = Except.error (PyError.ioError ("timeout"))) ∧
    fetch_app_info (Except.error (PyError.ioError ("timeout"))) stFresh =
      Except.error (PyError.exception
        (("Error fetching app info: ") ++ (PyError.ioError ("timeout")).msg)) ∧
    fetch_reviews roTimeout 100 stFresh =
      Except.error (PyError.exception
        (("Error fetching reviews: ") ++ (PyError.ioError ("timeout")).msg)) :=
  ⟨rfl,
   (fetch_failure_wrapped_exception (PyError.ioError ("timeout")) stFresh
     roTimeout 100).1,
   (fetch_failure_wrapped_exception (PyError.ioError ("timeout")) stFresh
     roTimeout 100).2 rfl⟩

theorem get_analysis_history_report_path (fs : FS) :
    ∀ x ∈ get_analysis_history fs, x.report_path = none := by
  intro x hx
  unfold get_analysis_history at hx
  rw [mem_sortDescBy] at hx
  rcases List.mem_filterMap.mp hx with ⟨kv, hkv, hsome⟩
  split at hsome
  · unfold histEntryOfReport at hsome
    split at hsome
    · injection hsome with h2
      subst h2
      rfl
    · simp at hsome
  · simp at hsome

theorem historyOf_save (l : List HistEntry) (fs : FS) :
    historyOf (save_history l fs) = some l := by
  unfold historyOf save_history FS.write
  rw [alookup_writeList_self]

theorem getLastD_append {α : Type} (l : List α) (a : α) :
    ∀ d : α, (l ++ [a]).getLastD d = a := by
  induction l with
  | nil => intro d; rfl
  | cons x xs ih =>
    intro d
    rw [List.cons_append, List.getLastD_cons]
    exact ih x

/-- C9, amended.  Each frontend analysis run rebuilds the history from
the per-app report files currently on disk, appends exactly one entry
for the current run (carrying the run date and the report path), and
overwrites `reports/analysis_history.json` with the result.  Every
entry except the appended last one is derived from a report file and
carries no `report_path` — so entries a previous run appended (which do
carry one) are never preserved; the file is not append-only. -/
theorem history_rebuild_and_append
    (io : Except PyError (List (String × JField)))
    (ro : Nat → Except PyError (List Review))
    (parse : String → Option JVal) (oracle : String → ClaudeOutcome)
    (nowIso nowFmt : String) (app_id lang country : String) (count : Nat)
    (fs fsOut : FS)
    (h : runAnalysis io ro parse oracle nowIso nowFmt app_id lang country count fs
      = .ok fsOut) :
    (historyOf fsOut).isSome = true ∧
    (lastEntryOf fsOut).app_id = app_id ∧
    (lastEntryOf fsOut).date = nowFmt ∧
    (lastEntryOf fsOut).report_path =
      some (("reports") ++ ("/") ++ app_id ++ ("_report.json")) ∧
    (((historyOf fsOut).getD []).dropLast.all
      (fun x => x.report_path.isNone)) = true := by
  unfold runAnalysis at h
  try dsimp only at h
  obtain ⟨si, hsi, h⟩ := exceptBind_ok h
  obtain ⟨siSt, siI⟩ := si
  obtain ⟨sr, hsr, h⟩ := exceptBind_ok h
  obtain ⟨srSt, srR⟩ := sr
  obtain ⟨out, hgen, h⟩ := exceptBind_ok h
  obtain ⟨st3, rest⟩ := out
  obtain ⟨fs1, rest2⟩ := rest
  obtain ⟨r, rp⟩ := rest2
  try dsimp only at h
  cases hai : st3.app_info with
  | none => rw [hai] at h; simp at h
  | some info =>
    rw [hai] at h
    try dsimp only at h
    cases ht : alookup info ("title") with
    | none => rw [ht] at h; simp at h
    | some titleV =>
      rw [ht] at h
      try dsimp only at h
      injection h with h2
      subst h2
      have e1 := fetch_app_info_ok hsi
      have e2 := fetch_reviews_ok hsr
      obtain ⟨e3a, e3b, _, _⟩ := generate_report_ok hgen
      have happ : srSt.app_id = app_id := by rw [e2, e1]
      have hrp : rp = ("reports") ++ ("/") ++ app_id ++ ("_report.json") := by
        rw [e3b, happ]
      refine ⟨?_, ?_, ?_, ?_, ?_⟩
      · rw [historyOf_save]
        rfl
      · unfold lastEntryOf
        rw [historyOf_save]
        simp only [Option.getD_some]
        rw [getLastD_append]
      · unfold lastEntryOf
        rw [historyOf_save]
        simp only [Option.getD_some]
        rw [getLastD_append]
      · unfold lastEntryOf
        rw [historyOf_save]
        simp only [Option.getD_some]
        rw [getLastD_append]
        simp only [hrp]
      · rw [historyOf_save]
        simp only [Option.getD_some]
        rw [List.dropLast_concat]
        rw [List.all_eq_true]
        intro x hx
        have hnone := get_analysis_history_report_path fs1 x hx
        simp [hnone]

theorem history_rebuild_and_append_witness :
    (runAnalysis (Except.ok infoA) roOne stubParse stubOracle
        ("2024-01-01T00:00:00") ("2024-01-01 00:00:00") ("app.x") ("en") ("us")
        100 fs0 = Except.ok c9fs1val) ∧
    ((historyOf c9fs1val).isSome = true ∧
     (lastEntryOf c9fs1val).app_id = ("app.x") ∧
     (lastEntryOf c9fs1val).date = ("2024-01-01 00:00:00") ∧
     (lastEntryOf c9fs1val).report_path =
       some (("reports") ++ ("/") ++ ("app.x") ++ ("_report.json")) ∧
     (((historyOf c9fs1val).getD []).dropLast.all
       (fun x => x.report_path.isNone)) = true) :=
  ⟨by decide,
   history_rebuild_and_append (Except.ok infoA) roOne stubParse stubOracle
     ("2024-01-01T00:00:00") ("2024-01-01 00:00:00") ("app.x") ("en") ("us")
     100 fs0 c9fs1val (by decide)⟩

/-- C9 counterexample.  The claim says the history list is append-only:
each run preserves all previously stored entries.  Concretely: after the
first run the history file holds two entries, among them the appended
`c9appended1`; after a second run for the same app the file holds two
fresh entries and `c9appended1` is gone — the prior content was not
preserved. -/
theorem history_entry_not_preserved :
    (c9run1.toOption.bind historyOf = some [c9derived1, c9appended1]) ∧
    (c9run2.toOption.bind historyOf = some [c9derived2, c9appended2]) ∧
    c9appended1 ∉ [c9derived2, c9appended2] :=
  ⟨by decide, by decide, by decide⟩
